import Mathlib

/-!
Verification of the rawcheck utility (src/rawcheck.py) against its
natural-language specification.

The development shallowly embeds the program:

* `Queue` — the functional (atomic-step) view of the `Queue` class:
  its `_data` list and `_completed` flag, with `push`, `pop` (returning a
  `PopRes` that distinguishes an item, the `None` sentinel, and the
  would-block case), `markComplete` (the `completed()` method) and `clear`.
* A small-step interleaving model (`Config`, `stepPopper`, `stepProd`,
  `runSched`) of one popper thread executing `Queue.pop`'s internal
  statements concurrently with a producer running a list of micro-actions
  (`append`, `notify`, `setCompleted`), mirroring the byte-code-level
  granularity of the Python methods: the emptiness check runs under the
  semaphore, the `_completed` read is unguarded, and the condition wait is
  a separate step.
* `commandUpdate` — `WorkerThread._command`'s effect on the worker's
  `_failed` dict, given the subprocess exit code and raw stderr.
* `workerInit` / `workerRunStart` / `workerRun` — `WorkerThread.__init__`
  (executable checks) and `run`.
* `extScan` / `extKey` — `os.path.splitext` on a bare file name followed by
  `ext[1:].lower()`; `bumpExt` — the extension-count dict update;
  `scanStep` / `scanFiles` — the traversal loop body.
* `rawCheckCall` — `RawCheck.__call__` as a function from an environment
  (directory validity, executable flags, worker count, walked files,
  validator behaviour, optional interrupt point) to an `Outcome` recording
  the returned value, the final value of the local `result` variable, the
  printed error, the extension table, the pushed paths, the final queue
  state and the merged failure dict.  `mainExit` is the `__main__` block.
-/

/-! ## Functional queue model (atomic view of the Queue class) -/

/-- State of the `Queue` object: the `_data` list and the `_completed` flag. -/
structure Queue where
  data : List String
  completed : Bool
deriving DecidableEq

/-- Result of one `pop` attempt: an item, the `None` sentinel, or the
would-block case (empty and not completed, where the Python code waits). -/
inductive PopRes where
  | item (v : String)
  | sentinel
  | blocked
deriving DecidableEq

/-- `Queue.push`: appends to the tail of `_data` (no check of `_completed`). -/
def Queue.push (q : Queue) (v : String) : Queue :=
  { q with data := q.data ++ [v] }

/-- `Queue.pop`, atomic view: non-empty data yields the head (`_data.pop(0)`);
empty and completed yields the `None` sentinel; empty and not completed
would block. -/
def Queue.pop (q : Queue) : PopRes × Queue :=
  match q.data with
  | v :: rest => (PopRes.item v, { q with data := rest })
  | [] => if q.completed then (PopRes.sentinel, q) else (PopRes.blocked, q)

/-- `Queue.completed()` (the method): sets the `_completed` flag. -/
def Queue.markComplete (q : Queue) : Queue :=
  { q with completed := true }

/-- `Queue.clear()`: empties `_data` without touching `_completed`. -/
def Queue.clear (q : Queue) : Queue :=
  { q with data := [] }

/-- A freshly constructed queue. -/
def emptyQueue : Queue := { data := [], completed := false }

/-- Push a whole list of items in order. -/
def pushAll (q : Queue) (vs : List String) : Queue :=
  vs.foldl Queue.push q

/-- Repeatedly pop (with fuel), collecting the items delivered, stopping at
the first sentinel or would-block result.  Returns the items in delivery
order together with the final queue state. -/
def drainFuel : Nat → Queue → List String × Queue
  | 0, q => ([], q)
  | n + 1, q =>
    match Queue.pop q with
    | (PopRes.item v, q2) =>
      let r := drainFuel n q2
      (v :: r.1, r.2)
    | (_, q2) => ([], q2)

/-! ## Small-step interleaving model of `Queue.pop` vs. a producer

`Queue.pop`'s body is a loop:

    with self._sem:
        if len(self._data) > 0: result = self._data.pop(0); break
    if not self._completed:
        with self._cond: self._cond.wait()
    else:
        break

Each guarded region is one atomic step.  The producer (the coordinator
thread) runs a compiled list of micro-actions: `push(v)` is `append v`
(under the semaphore) followed by `notify` (under the condition), and
`completed()` is `setCompleted` followed by `notify`. -/

/-- One atomic producer-side action. -/
inductive MicroAct where
  | append (v : String)
  | notify
  | setCompleted
deriving DecidableEq

/-- Program counter of the popper thread inside `Queue.pop`. -/
inductive PopperPc where
  | checkData
  | checkCompleted
  | enterWait
  | waiting
  | done (r : Option String)
deriving DecidableEq

/-- A configuration of the two-thread system: the queue fields, the popper
program counter, and the producer's remaining micro-actions. -/
structure Config where
  data : List String
  completed : Bool
  popper : PopperPc
  prod : List MicroAct
deriving DecidableEq

/-- One step of the popper thread. A thread in the condition waitset takes
no step on its own: only a `notify` can move it. -/
def stepPopper (c : Config) : Config :=
  match c.popper with
  | PopperPc.checkData =>
    match c.data with
    | v :: rest => { c with data := rest, popper := PopperPc.done (some v) }
    | [] => { c with popper := PopperPc.checkCompleted }
  | PopperPc.checkCompleted =>
    if c.completed then { c with popper := PopperPc.done none }
    else { c with popper := PopperPc.enterWait }
  | PopperPc.enterWait => { c with popper := PopperPc.waiting }
  | PopperPc.waiting => c
  | PopperPc.done _ => c

/-- One step of the producer thread: execute its next micro-action.
`notify` wakes the popper only if it is already in the waitset. -/
def stepProd (c : Config) : Config :=
  match c.prod with
  | [] => c
  | a :: rest =>
    match a with
    | MicroAct.append v => { c with data := c.data ++ [v], prod := rest }
    | MicroAct.notify =>
      { c with
        popper := if c.popper = PopperPc.waiting then PopperPc.checkData else c.popper,
        prod := rest }
    | MicroAct.setCompleted => { c with completed := true, prod := rest }

/-- Scheduler step: `true` runs the producer, `false` runs the popper. -/
def step (b : Bool) (c : Config) : Config :=
  if b then stepProd c else stepPopper c

/-- Run a schedule (a list of thread choices) from a configuration. -/
def runSched (s : List Bool) (c : Config) : Config :=
  s.foldl (fun c2 b => step b c2) c

/-- Initial configuration for the missed-push scenario: empty queue, popper
about to run `pop`, producer about to run a single `push "a"`. -/
def initC3 : Config :=
  { data := [], completed := false, popper := PopperPc.checkData,
    prod := [MicroAct.append "a", MicroAct.notify] }

/-- Schedule that loses the push's wakeup: the popper sees the queue empty,
the producer then pushes and notifies (nobody is waiting yet), and the
popper, having already read `_completed == False`, enters the waitset. -/
def missSched : List Bool := [false, true, true, false, false]

/-- The stuck configuration that `missSched` reaches from `initC3`. -/
def stuckC3 : Config :=
  { data := ["a"], completed := false, popper := PopperPc.waiting, prod := [] }

/-- Schedule on which the popper waits first and the push's notification is
delivered while it is in the waitset, so the popper receives the item. -/
def wakeSched : List Bool := [false, false, false, true, true, false]

/-- Initial configuration for the dropped-item scenario: producer pushes
`"a"` and then runs `completed()`. -/
def initC4 : Config :=
  { data := [], completed := false, popper := PopperPc.checkData,
    prod := [MicroAct.append "a", MicroAct.notify, MicroAct.setCompleted,
             MicroAct.notify] }

/-- Schedule on which the popper's emptiness check precedes the pushes: the
popper then observes `_completed == True` and returns the sentinel while
`"a"` is still in the queue. -/
def dropSched : List Bool := [false, true, true, true, true, false]

/-! ## Worker model (`WorkerThread`) -/

/-- Python's `str.strip()`: remove whitespace from both ends. -/
def pyStrip (s : String) : String :=
  String.mk (((s.data.dropWhile Char.isWhitespace).reverse.dropWhile
    Char.isWhitespace).reverse)

/-- The path-echo removal in `_command`: if the (trimmed) stderr starts with
the input path, drop `len(path) + 2` characters (`stderr[len(path) + 2:]`);
otherwise leave it unchanged. -/
def stripEcho (path s : String) : String :=
  if path.data.isPrefixOf s.data then String.mk (s.data.drop (path.data.length + 2))
  else s

/-- Python dict assignment `d[k] = v` on a dict modelled as an
insertion-ordered association list: overwrite the existing entry in place,
else append. -/
def dictSet (d : List (String × String)) (k v : String) : List (String × String) :=
  match d with
  | [] => [(k, v)]
  | p :: t => if p.1 = k then (p.1, v) :: t else p :: dictSet t k v

/-- Effect of `WorkerThread._command(path)` on the worker's `_failed` dict,
given the subprocess's `returncode` and raw stderr text:

    stderr = res.stderr.decode("utf-8").strip()
    if (res.returncode != 0) or (stderr != ""):
        if stderr.startswith(path):
            stderr = stderr[len(path) + 2:]
        self._failed[path] = stderr
-/
def commandUpdate (path : String) (rc : Int) (rawStderr : String)
    (failed : List (String × String)) : List (String × String) :=
  let stderr := pyStrip rawStderr
  if rc ≠ 0 ∨ stderr ≠ "" then dictSet failed path (stripEcho path stderr)
  else failed

/-- Filesystem facts about the configured validator executable, as seen by
`os.path.isfile` and `os.access(..., os.X_OK)`. -/
structure Fs where
  isFile : Bool
  isExec : Bool
deriving DecidableEq

/-- A `WorkerThread` object: the configured executable path and the
`_failed` attribute, which `__init__` sets to `None`. -/
structure Worker where
  dcrawPath : String
  failed : Option (List (String × String))
deriving DecidableEq

/-- `WorkerThread.__init__`: sets `_failed = None`, then raises `AppError`
if the executable is not a file, or is a file but not executable. -/
def workerInit (path : String) (fs : Fs) : Except String Worker :=
  if fs.isFile = false then
    Except.error ("Executable '" ++ path ++ "' not found")
  else if fs.isExec = false then
    Except.error ("File '" ++ path ++ "' ist not executable")
  else
    Except.ok { dcrawPath := path, failed := none }

/-- The first statement of `WorkerThread.run`: `self._failed = {}`. -/
def workerRunStart (w : Worker) : Worker :=
  { w with failed := some [] }

/-- `WorkerThread.run` applied to the sequence of paths this worker pops:
initialises `_failed` to the empty dict and runs `_command` on each path. -/
def workerRun (w : Worker) (validate : String → Int × String)
    (paths : List String) : Worker :=
  paths.foldl
    (fun w2 p =>
      { w2 with failed := w2.failed.map (commandUpdate p (validate p).1 (validate p).2) })
    (workerRunStart w)

/-- The coordinator's merge of one worker's result
(`for p, e in t.failed.items(): failed[p] = e`): `none` models the
`AttributeError` raised when `_failed` is still `None`. -/
def mergeWorker (acc : List (String × String)) (w : Worker) :
    Option (List (String × String)) :=
  match w.failed with
  | none => none
  | some f => some (f.foldl (fun a p => dictSet a p.1 p.2) acc)

/-- Whether `WorkerThread.__init__` completed without raising. -/
def workerInitOk (path : String) (fs : Fs) : Bool :=
  match workerInit path fs with
  | Except.ok _ => true
  | Except.error _ => false

/-- The `AppError` message raised by `WorkerThread.__init__`, if any. -/
def workerInitMsg (path : String) (fs : Fs) : Option String :=
  match workerInit path fs with
  | Except.ok _ => none
  | Except.error e => some e

/-! ## Coordinator model (`RawCheck`) -/

/-- `os.path.splitext` on a bare file name (no directory separators),
returning the extension including its dot, or `none`.  The last dot
qualifies only if some non-dot character occurs before it (CPython skips
leading dots, so `.bashrc` has no extension).  The boolean argument records
whether a non-dot character has been seen so far. -/
def extScan : Bool → List Char → Option (List Char)
  | _, [] => none
  | seen, c :: rest =>
    if c = '.' then
      match extScan seen rest with
      | some e => some e
      | none => if seen then some (c :: rest) else none
    else extScan true rest

/-- The key used for the extension-count table:
`os.path.splitext(f)[1][1:].lower()`. -/
def extKey (f : String) : String :=
  match extScan false f.data with
  | some e => String.mk ((e.drop 1).map Char.toLower)
  | none => ""

/-- `os.path.join(base, f)` for a relative name `f`. -/
def pyJoin (base f : String) : String :=
  if base = "" then f
  else if base.data.getLast? = some ('/' : Char) then base ++ f
  else base ++ "/" ++ f

/-- `RawCheck._raw_ext`. -/
def rawExtList : List String := ["crw", "cr2", "cr3", "rw2", "dng", "raf"]

/-- The extension-count dict update in the traversal loop:

    if not ext in extensions: extensions[ext] = 1
    else: extensions[ext] += 1
-/
def bumpExt (tbl : List (String × Nat)) (k : String) : List (String × Nat) :=
  match tbl with
  | [] => [(k, 1)]
  | p :: t => if p.1 = k then (p.1, p.2 + 1) :: t else p :: bumpExt t k

/-- The count recorded in the table for a key (0 when absent). -/
def lookupCount (tbl : List (String × Nat)) (k : String) : Nat :=
  match tbl.find? (fun p => p.1 = k) with
  | some p => p.2
  | none => 0

/-- Body of the traversal loop for one walked file `(base, name)`: count the
lowercase extension of every file, and push `os.path.join(base, name)` when
the extension is one of the RAW extensions. -/
def scanStep (st : List (String × Nat) × List String) (bf : String × String) :
    List (String × Nat) × List String :=
  let k := extKey bf.2
  (bumpExt st.1 k,
   if k ∈ rawExtList then st.2 ++ [pyJoin bf.1 bf.2] else st.2)

/-- The whole traversal over the walked files, from an empty table and
queue: returns the extension table and the list of pushed paths. -/
def scanFiles (fs : List (String × String)) : List (String × Nat) × List String :=
  fs.foldl scanStep ([], [])

/-- Where a `KeyboardInterrupt` fires, when it does: after `k` files of the
traversal, or during the join loop. -/
inductive InterruptPt where
  | duringScan (k : Nat)
  | duringJoin
deriving DecidableEq

/-- Environment of one `RawCheck.__call__` invocation: the parsed argument
values, the filesystem facts the code consults, the walked files in walk
order as `(base, name)` pairs, the behaviour of the external validator
(exit code and raw stderr per path), and the optional interrupt point. -/
structure Env where
  dir : String
  dirIsDir : Bool
  dcrawPath : String
  fs : Fs
  workers : Nat
  files : List (String × String)
  validate : String → Int × String
  interrupt : Option InterruptPt

/-- Observable outcome of one `RawCheck.__call__` invocation. `ret` is the
value the call returns to `__main__`; `resultVar` is the final value of the
local variable `result`; `errorMsg` is the `AppError` message printed, if
any; `failedMerged` is the merged failure dict if the merge completed;
`printedFailures` is the failure list printed, if any. -/
structure Outcome where
  ret : Option Bool
  resultVar : Bool
  errorMsg : Option String
  extensions : List (String × Nat)
  pushed : List String
  queueData : List String
  queueCompleted : Bool
  failedMerged : Option (List (String × String))
  printedFailures : Option (List (String × String))
deriving DecidableEq

/-- Outcome of a run aborted by `AppError` before traversal: the message is
printed, nothing was scanned or pushed, the queue is untouched, `result`
keeps its initial `False`, and the function falls off its end returning
`None`. -/
def errOutcome (e : String) : Outcome :=
  { ret := none, resultVar := false, errorMsg := some e,
    extensions := [], pushed := [], queueData := [], queueCompleted := false,
    failedMerged := none, printedFailures := none }

/-- Outcome of a run cancelled by `KeyboardInterrupt`: the handler runs
`queue.clear()` then `queue.completed()`; nothing is merged or printed,
`result` keeps its initial `False`, and the call returns `None`. -/
def cancelOutcome (st : List (String × Nat) × List String) : Outcome :=
  { ret := none, resultVar := false, errorMsg := none,
    extensions := st.1, pushed := st.2, queueData := [], queueCompleted := true,
    failedMerged := none, printedFailures := none }

/-- The merged failure dict: each pushed path is processed by exactly one
worker via `_command` into that worker's private dict, and the per-worker
dicts (over disjoint paths) are merged after the joins, so the union equals
a single fold of `commandUpdate` over the pushed paths. -/
def mergeResults (validate : String → Int × String) (paths : List String) :
    List (String × String) :=
  paths.foldl (fun acc p => commandUpdate p (validate p).1 (validate p).2 acc) []

/-- `RawCheck.__call__`.  Note that the Python function body contains no
`return` statement, so every path through it returns `None`. -/
def rawCheckCall (env : Env) : Outcome :=
  if env.dirIsDir = false then
    errOutcome ("Specified path '" ++ env.dir ++
      "' does not exist or is not a directory")
  else
    match (if 1 ≤ env.workers then workerInitMsg env.dcrawPath env.fs else none) with
    | some e => errOutcome e
    | none =>
      match env.interrupt with
      | some (InterruptPt.duringScan k) => cancelOutcome (scanFiles (env.files.take k))
      | some InterruptPt.duringJoin => cancelOutcome (scanFiles env.files)
      | none =>
        let st := scanFiles env.files
        let merged := if 1 ≤ env.workers then mergeResults env.validate st.2 else []
        { ret := none, resultVar := merged.isEmpty, errorMsg := none,
          extensions := st.1, pushed := st.2,
          queueData := if 1 ≤ env.workers then [] else st.2,
          queueCompleted := true,
          failedMerged := some merged,
          printedFailures := if merged.isEmpty then none else some merged }

/-- The `__main__` block: `sys.exit(0)` when the call's return value is
truthy, `sys.exit(1)` otherwise. -/
def mainExit (env : Env) : Nat :=
  match (rawCheckCall env).ret with
  | some true => 0
  | _ => 1

/-- A well-configured run over an empty directory: every validation
succeeds vacuously, so the merged failure dict is empty. -/
def envC1 : Env :=
  { dir := "photos", dirIsDir := true, dcrawPath := "/usr/bin/dcraw_emu",
    fs := { isFile := true, isExec := true }, workers := 1, files := [],
    validate := fun _ => (0, ""), interrupt := none }

/-- Scenario C: a directory `d` containing `a.jpg` and `b.cr3`. -/
def envC8 : Env :=
  { dir := "d", dirIsDir := true, dcrawPath := "/usr/bin/dcraw_emu",
    fs := { isFile := true, isExec := true }, workers := 1,
    files := [("d", "a.jpg"), ("d", "b.cr3")],
    validate := fun _ => (0, ""), interrupt := none }

/-- A run configured with a validator path that is not a file. -/
def envBadExec : Env :=
  { dir := "d", dirIsDir := true, dcrawPath := "/opt/missing",
    fs := { isFile := false, isExec := true }, workers := 2,
    files := [("d", "x.cr2")], validate := fun _ => (0, ""), interrupt := none }

/-- A run interrupted by `KeyboardInterrupt` after the first walked file. -/
def envInterrupted : Env :=
  { dir := "d", dirIsDir := true, dcrawPath := "/usr/bin/dcraw_emu",
    fs := { isFile := true, isExec := true }, workers := 1,
    files := [("d", "x.cr2"), ("d", "y.dng")],
    validate := fun _ => (1, "boom"), interrupt := some (InterruptPt.duringScan 1) }

/-! ## Helper lemmas -/

/-- Pushing a list of items appends it to the data, leaving the flag alone. -/
theorem pushAll_eq (P : List String) : ∀ q : Queue,
    pushAll q P = { data := q.data ++ P, completed := q.completed } := by
  induction P with
  | nil => intro q; simp [pushAll]
  | cons v t ih =>
    intro q
    have h1 : pushAll q (v :: t) = pushAll (Queue.push q v) t := rfl
    rw [h1, ih (Queue.push q v)]
    simp [Queue.push]

/-- Draining a completed queue with enough fuel yields exactly its data. -/
theorem drainFuel_completed : ∀ P : List String,
    drainFuel (P.length + 1) { data := P, completed := true } =
      (P, { data := [], completed := true }) := by
  intro P
  induction P with
  | nil => rfl
  | cons v t ih =>
    have h1 : drainFuel (t.length + 1 + 1) { data := v :: t, completed := true } =
        (v :: (drainFuel (t.length + 1) { data := t, completed := true }).1,
         (drainFuel (t.length + 1) { data := t, completed := true }).2) := rfl
    show drainFuel (t.length + 1 + 1) { data := v :: t, completed := true } = _
    rw [h1, ih]

/-- Neither thread can move in the stuck configuration: the producer is
done and the popper sits in the waitset with no notification to come. -/
theorem step_stuckC3 : ∀ b : Bool, step b stuckC3 = stuckC3 := by
  intro b
  cases b <;> rfl

/-- No continuation schedule changes the stuck configuration. -/
theorem runSched_stuckC3 : ∀ s : List Bool, runSched s stuckC3 = stuckC3 := by
  intro s
  induction s with
  | nil => rfl
  | cons b t ih =>
    show runSched t (step b stuckC3) = stuckC3
    rw [step_stuckC3 b]
    exact ih

/-- Incrementing a key's count in the extension table raises exactly that
key's recorded count by one. -/
theorem lookupCount_bumpExt_self : ∀ (tbl : List (String × Nat)) (k : String),
    lookupCount (bumpExt tbl k) k = lookupCount tbl k + 1 := by
  intro tbl k
  induction tbl with
  | nil => simp [bumpExt, lookupCount, List.find?]
  | cons p t ih =>
    by_cases h : p.1 = k
    · simp [bumpExt, h, lookupCount, List.find?]
    · simpa [bumpExt, h, lookupCount, List.find?] using ih

/-- Incrementing a key's count leaves every other key's count unchanged. -/
theorem lookupCount_bumpExt_other : ∀ (tbl : List (String × Nat)) (k k2 : String),
    ¬ (k2 = k) → lookupCount (bumpExt tbl k) k2 = lookupCount tbl k2 := by
  intro tbl k k2 hne
  have hk : ¬ (k = k2) := fun h => hne h.symm
  induction tbl with
  | nil => simp [bumpExt, lookupCount, List.find?, hk]
  | cons p t ih =>
    by_cases h : p.1 = k
    · have hp : ¬ (p.1 = k2) := by
        rw [h]; exact hk
      simp [bumpExt, h, lookupCount, List.find?, hp, hk, hne]
    · by_cases h2 : p.1 = k2
      · simp [bumpExt, h, lookupCount, List.find?, h2, hk, hne]
      · simpa [bumpExt, h, lookupCount, List.find?, h2, hk, hne] using ih

/-! ## Claims -/

/-- Claim C5: on a queue whose data is empty and whose completed flag is
set, `pop` returns the `None` sentinel immediately (it does not take the
would-block branch), leaves the queue unchanged, and a repeated `pop`
returns the sentinel again; in the step model the popper reaches
`done none` in two steps without ever entering the waitset. -/
theorem C5_sentinel : ∀ q : Queue, q.data = [] → q.completed = true →
    Queue.pop q = (PopRes.sentinel, q) ∧
    Queue.pop (Queue.pop q).2 = (PopRes.sentinel, q) ∧
    (Queue.pop q).1 ≠ PopRes.blocked ∧
    (runSched [false, false]
      { data := [], completed := true, popper := PopperPc.checkData,
        prod := [] }).popper = PopperPc.done none := by
  intro q h1 h2
  obtain ⟨d, c⟩ := q
  simp only at h1 h2
  subst h1; subst h2
  exact ⟨rfl, rfl, by decide, by decide⟩

/-- Claim C5 witness at the concrete empty completed queue. -/
theorem C5_sentinel_witness :
    Queue.pop { data := [], completed := true } =
      (PopRes.sentinel, { data := [], completed := true }) :=
  (C5_sentinel { data := [], completed := true } rfl rfl).1

/-- Claim C9: `push` appends to the pending data and ignores the completed
flag entirely, and a subsequent `pop` on a previously empty queue returns
the newly pushed item even though the flag is set. -/
theorem C9_push_after_complete : ∀ (q : Queue) (v : String),
    (Queue.push q v).data = q.data ++ [v] ∧
    (Queue.push q v).completed = q.completed ∧
    (q.data = [] →
      Queue.pop (Queue.push q v) =
        (PopRes.item v, { data := [], completed := q.completed })) := by
  intro q v
  refine ⟨rfl, rfl, fun h => ?_⟩
  simp [Queue.push, Queue.pop, h]

/-- Claim C9 witness: pushing onto an empty, completed queue and popping. -/
theorem C9_push_after_complete_witness :
    Queue.pop (Queue.push { data := [], completed := true } "a") =
      (PopRes.item "a", { data := [], completed := true }) :=
  (C9_push_after_complete { data := [], completed := true } "a").2.2 rfl

/-- Claim C4 (amended): when the pops happen after `completed()` was
called — i.e. no pop's emptiness check races ahead of the pushes — draining
the queue yields every pushed item exactly once in FIFO push order, and
each single pop on a non-empty queue atomically removes exactly the head,
so pops interleaved across several poppers partition the pushed sequence. -/
theorem C4_fifo :
    (∀ P : List String,
      drainFuel (P.length + 1) (Queue.markComplete (pushAll emptyQueue P)) =
        (P, { data := [], completed := true })) ∧
    (∀ (v : String) (rest : List String) (c : Bool),
      Queue.pop { data := v :: rest, completed := c } =
        (PopRes.item v, { data := rest, completed := c })) := by
  constructor
  · intro P
    have h1 : Queue.markComplete (pushAll emptyQueue P) =
        { data := P, completed := true } := by
      rw [pushAll_eq P emptyQueue]
      simp [Queue.markComplete, emptyQueue]
    rw [h1]
    exact drainFuel_completed P
  · intro v rest c
    rfl

/-- Claim C4 counterexample: an interleaving of `pop` with
`push "a"; completed()` on the initially empty queue in which the popper's
emptiness check runs first; the popper then observes the completed flag and
returns the sentinel ("exhaustion") while `"a"` was never delivered and is
still sitting in the queue, refuting exactly-once delivery. -/
theorem C4_cex :
    ¬ (∀ s : List Bool,
        (runSched s initC4).prod = [] →
        (runSched s initC4).popper = PopperPc.done none →
        (runSched s initC4).data = []) := by
  intro h
  have h2 := h dropSched (by decide) (by decide)
  exact absurd h2 (by decide)

/-- Claim C3 (amended): a `push` or `completed()` notification delivered
while the popper is already in the waitset always wakes it and sends it
back to the emptiness check, and on such a schedule the popper receives the
pushed item; but on the `missSched` schedule the notification fires in the
window between the popper's emptiness check and its wait call, so the
popper is left waiting with the pushed item undelivered. -/
theorem C3_notify_wakes :
    (∀ c : Config, c.popper = PopperPc.waiting →
      c.prod.head? = some MicroAct.notify →
      (stepProd c).popper = PopperPc.checkData) ∧
    (runSched wakeSched initC3).popper = PopperPc.done (some "a") ∧
    (runSched missSched initC3).data = ["a"] ∧
    (runSched missSched initC3).popper = PopperPc.waiting := by
  refine ⟨?_, by decide, by decide, by decide⟩
  intro c h1 h2
  match hc : c.prod with
  | [] => rw [hc] at h2; simp at h2
  | a :: rest =>
    rw [hc] at h2
    simp at h2
    subst h2
    simp [stepProd, hc, h1]

/-- Claim C3 witness: a waiting popper is woken by the producer's pending
notify. -/
theorem C3_notify_wakes_witness :
    (stepProd { data := ["a"], completed := false,
                popper := PopperPc.waiting,
                prod := [MicroAct.notify] }).popper = PopperPc.checkData :=
  C3_notify_wakes.1
    { data := ["a"], completed := false,
      popper := PopperPc.waiting,
      prod := [MicroAct.notify] } rfl rfl

/-- Claim C3 counterexample: after the `missSched` interleaving of a single
`push "a"` with one `pop` on the empty non-completed queue, the push has
fully completed (its notify included) yet no continuation schedule ever
lets the popper return: the blocked popper missed the concurrent push and
deadlocks, refuting the claim that such a push is never missed. -/
theorem C3_cex :
    ¬ (∀ s : List Bool, ∃ s2 : List Bool, ∃ r : Option String,
        (runSched s2 (runSched s initC3)).popper = PopperPc.done r) := by
  intro h
  obtain ⟨s2, r, hr⟩ := h missSched
  have h1 : runSched missSched initC3 = stuckC3 := by decide
  rw [h1, runSched_stuckC3 s2] at hr
  simp [stuckC3] at hr

/-- Claim C2 (amended): `_command` records a failure entry for the path iff
the exit status is non-zero or the whitespace-trimmed diagnostic is
non-empty *before* the path-echo removal; the recorded value is the trimmed
diagnostic with its first `len(path) + 2` characters removed when it starts
with the path.  Scenario B (exit 1, diagnostic `"bad.DNG: corrupt header"`)
still yields the entry `("bad.DNG", "corrupt header")`, and exit 0 with an
empty diagnostic yields no entry. -/
theorem C2_record :
    (∀ (path raw : String) (rc : Int),
      commandUpdate path rc raw [] ≠ [] ↔ (rc ≠ 0 ∨ pyStrip raw ≠ "")) ∧
    (∀ (path raw : String) (rc : Int) (d : List (String × String)),
      rc ≠ 0 ∨ pyStrip raw ≠ "" →
      commandUpdate path rc raw d = dictSet d path (stripEcho path (pyStrip raw))) ∧
    commandUpdate "bad.DNG" 1 "bad.DNG: corrupt header" [] =
      [("bad.DNG", "corrupt header")] ∧
    commandUpdate "photo.CR2" 0 "" [] = [] := by
  refine ⟨?_, ?_, by decide, by decide⟩
  · intro path raw rc
    by_cases h : rc ≠ 0 ∨ pyStrip raw ≠ ""
    · simp [commandUpdate, h, dictSet]
    · simp [commandUpdate, h]
  · intro path raw rc d h
    simp [commandUpdate, h]

/-- Claim C2 witness: a non-zero exit status records the stripped trimmed
diagnostic. -/
theorem C2_record_witness :
    commandUpdate "p.cr2" 1 "oops" [] =
      dictSet [] "p.cr2" (stripEcho "p.cr2" (pyStrip "oops")) :=
  C2_record.2.1 "p.cr2" "oops" 1 [] (Or.inl (by decide))

/-- Claim C2 counterexample: for path `"bad.DNG"`, exit status 0 and raw
diagnostic `"bad.DNG"`, the diagnostic after path-echo removal is empty and
the exit status is zero — so the claim says no entry is recorded — yet
`_command` records the entry `("bad.DNG", "")`, because the code tests
emptiness before the path-echo removal. -/
theorem C2_cex :
    commandUpdate "bad.DNG" 0 "bad.DNG" [] = [("bad.DNG", "")] ∧
    ¬ ((0 : Int) ≠ 0 ∨ stripEcho "bad.DNG" (pyStrip "bad.DNG") ≠ "") := by
  constructor
  · decide
  · decide

/-- Claim C6: `WorkerThread.__init__` succeeds iff the configured validator
executable is a file and is executable (the check is made once, at
construction); and in a run with at least one worker whose construction
fails, the `AppError` aborts the whole run before traversal: an error
message is surfaced, nothing is scanned or pushed, no failure dict is
merged or printed, and `result` stays false. -/
theorem C6_construction :
    (∀ (path : String) (fs : Fs), workerInitOk path fs = (fs.isFile && fs.isExec)) ∧
    (∀ env : Env, env.dirIsDir = true → 1 ≤ env.workers →
      (env.fs.isFile && env.fs.isExec) = false →
      (rawCheckCall env).errorMsg.isSome = true ∧
      (rawCheckCall env).extensions = [] ∧
      (rawCheckCall env).pushed = [] ∧
      (rawCheckCall env).failedMerged = none ∧
      (rawCheckCall env).printedFailures = none ∧
      (rawCheckCall env).resultVar = false ∧
      (rawCheckCall env).ret = none) := by
  constructor
  · intro path fs
    obtain ⟨f, e⟩ := fs
    cases f <;> cases e <;> rfl
  · intro env h1 h2 h3
    by_cases hf : env.fs.isFile = false
    · simp [rawCheckCall, h1, h2, workerInitMsg, workerInit, hf, errOutcome]
    · have hf2 : env.fs.isFile = true := by
        cases hx : env.fs.isFile
        · exact absurd hx hf
        · rfl
      have he : env.fs.isExec = false := by
        rw [hf2] at h3
        simpa using h3
      simp [rawCheckCall, h1, h2, workerInitMsg, workerInit, hf2, he, errOutcome]

/-- Claim C6 witness: a run with two workers and a missing executable. -/
theorem C6_construction_witness :
    (rawCheckCall envBadExec).errorMsg.isSome = true ∧
    (rawCheckCall envBadExec).extensions = [] ∧
    (rawCheckCall envBadExec).pushed = [] ∧
    (rawCheckCall envBadExec).failedMerged = none ∧
    (rawCheckCall envBadExec).printedFailures = none ∧
    (rawCheckCall envBadExec).resultVar = false ∧
    (rawCheckCall envBadExec).ret = none :=
  C6_construction.2 envBadExec rfl (by decide) rfl

/-- Claim C7: whenever a `KeyboardInterrupt` fires during traversal or
while joining (in an otherwise well-configured run), the handler leaves the
queue cleared and completed — so a worker's `pop` on the resulting queue
state returns the `None` sentinel — the run reports not-successful
(`result` stays false, the call returns `None`, the process exits 1), no
exception escapes (`errorMsg` is none), and no failure list is merged or
printed. -/
theorem C7_cancel : ∀ (env : Env) (ip : InterruptPt),
    env.dirIsDir = true → env.fs.isFile = true → env.fs.isExec = true →
    env.interrupt = some ip →
    (rawCheckCall env).queueData = [] ∧
    (rawCheckCall env).queueCompleted = true ∧
    Queue.pop { data := (rawCheckCall env).queueData,
                completed := (rawCheckCall env).queueCompleted } =
      (PopRes.sentinel, { data := [], completed := true }) ∧
    (rawCheckCall env).resultVar = false ∧
    (rawCheckCall env).ret = none ∧
    (rawCheckCall env).errorMsg = none ∧
    (rawCheckCall env).failedMerged = none ∧
    (rawCheckCall env).printedFailures = none ∧
    mainExit env = 1 := by
  intro env ip h1 h2 h3 h4
  have hmsg : workerInitMsg env.dcrawPath env.fs = none := by
    simp [workerInitMsg, workerInit, h2, h3]
  have hout : rawCheckCall env = cancelOutcome
      (match ip with
       | InterruptPt.duringScan k => scanFiles (env.files.take k)
       | InterruptPt.duringJoin => scanFiles env.files) := by
    cases ip <;> simp [rawCheckCall, h1, h4, hmsg]
  rw [mainExit, hout]
  simp [cancelOutcome, Queue.pop]

/-- Claim C7 witness: interrupt after the first of two walked files. -/
theorem C7_cancel_witness :
    (rawCheckCall envInterrupted).queueData = [] ∧
    (rawCheckCall envInterrupted).queueCompleted = true ∧
    Queue.pop { data := (rawCheckCall envInterrupted).queueData,
                completed := (rawCheckCall envInterrupted).queueCompleted } =
      (PopRes.sentinel, { data := [], completed := true }) ∧
    (rawCheckCall envInterrupted).resultVar = false ∧
    (rawCheckCall envInterrupted).ret = none ∧
    (rawCheckCall envInterrupted).errorMsg = none ∧
    (rawCheckCall envInterrupted).failedMerged = none ∧
    (rawCheckCall envInterrupted).printedFailures = none ∧
    mainExit envInterrupted = 1 :=
  C7_cancel envInterrupted (InterruptPt.duringScan 1) rfl rfl rfl rfl

/-- Claim C1: evaluation of the code at a well-configured run with no
failures.  `RawCheck.__call__` computes `result = True` (the merged failure
dict is empty) but its body contains no `return` statement, so the call
returns `None`; `__main__`'s truthiness test therefore fails and the
process exits 1 even on overall success, contradicting the claimed
return-true / exit-0 behaviour. -/
theorem C1_bug :
    (rawCheckCall envC1).failedMerged = some [] ∧
    (rawCheckCall envC1).resultVar = true ∧
    (rawCheckCall envC1).errorMsg = none ∧
    (rawCheckCall envC1).ret = none ∧
    mainExit envC1 = 1 :=
  ⟨rfl, rfl, rfl, rfl, rfl⟩

/-- Claim C8: every walked file bumps the extension table at exactly its
lowercase extension key (other keys untouched), the file's joined path is
pushed iff that key is one of the RAW extensions; matching is
case-insensitive (`b.CR3` counts as `cr3`), and the scenario directory with
`a.jpg` and `b.cr3` yields the table `jpg ↦ 1, cr3 ↦ 1` with only `d/b.cr3`
pushed. -/
theorem C8_scan :
    (∀ (tbl : List (String × Nat)) (k : String),
      lookupCount (bumpExt tbl k) k = lookupCount tbl k + 1) ∧
    (∀ (tbl : List (String × Nat)) (k k2 : String), ¬ (k2 = k) →
      lookupCount (bumpExt tbl k) k2 = lookupCount tbl k2) ∧
    (∀ (st : List (String × Nat) × List String) (bf : String × String),
      (scanStep st bf).1 = bumpExt st.1 (extKey bf.2) ∧
      (scanStep st bf).2 =
        (if extKey bf.2 ∈ rawExtList then st.2 ++ [pyJoin bf.1 bf.2] else st.2)) ∧
    extKey "b.CR3" = "cr3" ∧
    extKey "a.jpg" = "jpg" ∧
    (rawCheckCall envC8).extensions = [("jpg", 1), ("cr3", 1)] ∧
    (rawCheckCall envC8).pushed = ["d/b.cr3"] := by
  exact ⟨lookupCount_bumpExt_self, lookupCount_bumpExt_other,
    fun st bf => ⟨rfl, rfl⟩, by decide, by decide, by decide, by decide⟩

/-- Claim C8 witness: bumping `cr3` leaves the `jpg` count unchanged. -/
theorem C8_scan_witness :
    lookupCount (bumpExt [("jpg", 1)] "cr3") "jpg" = lookupCount [("jpg", 1)] "jpg" :=
  C8_scan.2.1 [("jpg", 1)] "cr3" "jpg" (by decide)

/-- Claim C10: a `WorkerThread` fresh out of `__init__` has `_failed` set
to `None`, not to an empty dict; the coordinator's merge of such a worker
dereferences `None` (modelled as the merge yielding `none` instead of a
dict), and only the first statement of `run()` initialises `_failed` to the
empty dict. -/
theorem C10_unrun_worker : ∀ (path : String) (fs : Fs) (w : Worker),
    workerInit path fs = Except.ok w →
    w.failed = none ∧
    w.failed ≠ some [] ∧
    mergeWorker [] w = none ∧
    (workerRunStart w).failed = some [] := by
  intro path fs w h
  by_cases h1 : fs.isFile = false
  · simp [workerInit, h1] at h
  · by_cases h2 : fs.isExec = false
    · simp [workerInit, h1, h2] at h
    · simp [workerInit, h1, h2] at h
      subst h
      exact ⟨rfl, by simp, rfl, rfl⟩

/-- Claim C10 witness: a concretely constructed worker. -/
theorem C10_unrun_worker_witness :
    ({ dcrawPath := "/usr/bin/dcraw_emu", failed := none } : Worker).failed = none ∧
    ({ dcrawPath := "/usr/bin/dcraw_emu", failed := none } : Worker).failed ≠ some [] ∧
    mergeWorker [] { dcrawPath := "/usr/bin/dcraw_emu", failed := none } = none ∧
    (workerRunStart { dcrawPath := "/usr/bin/dcraw_emu", failed := none }).failed =
      some [] :=
  C10_unrun_worker "/usr/bin/dcraw_emu" { isFile := true, isExec := true }
    { dcrawPath := "/usr/bin/dcraw_emu", failed := none } rfl
